import Mathlib

/-!
Shallow embedding of the nnstreamer tensor_converter element
(gst/nnstreamer/elements/gsttensor_converter.c).

The embedding covers the tensor descriptor data model, the per-media-kind
capability parsers (gst_tensor_converter_parse_video / _audio / _text /
_octet / _tensor), the negotiation entry point gst_tensor_converter_parse_caps,
src-pad caps publication (gst_tensor_converter_update_caps), and the data
path (gst_tensor_converter_chain together with its private routines
_gst_tensor_converter_chain_segment / _chain_timestamp / _chain_push /
_chain_chunk and the byte aggregation adapter).

Modelling conventions:
- Machine integers (guint, gsize, guint64 clock times) are modelled as Nat;
  GST_CLOCK_TIME_NONE is modelled as the Option none value.
- GStreamer / glib collaborators that are not part of this repository
  (GstAdapter, caps parsing into GstVideoInfo / GstAudioInfo, pads) are
  modelled by explicit data: caps events carry the already-extracted media
  info, the downstream peer's config is an explicit argument, the src pad's
  current caps are a field of the element state, and the aggregation adapter
  is modelled after GstAdapter's documented semantics (prev_pts returns the
  timestamp of the last pushed buffer that starts at or before the current
  read position, together with the byte distance from that buffer's start).
- Helper functions of this repository that live outside the given sources
  (tensor_common / tensor_meta) are modelled from the specification and
  carry a doc comment saying so.
- g_assert failures (which abort the process) are modelled as an error
  return that leaves the element state unchanged from the point of the
  assertion on.
- The custom / external-converter modes (_NNS_MEDIA_ANY) dispatch to
  external collaborator plugins, which the specification places out of
  scope; they are not part of the embedding.  The _NNS_TENSOR branch of the
  chain function is embedded as the separate function
  gst_tensor_converter_chain_tensor since its input buffer is a list of
  header-prefixed flexible records rather than a flat byte stream.
-/

namespace TensorConverter

/-- Modelled from the spec: element types of a tensor (signed/unsigned
integers of width 8/16/32/64, float16/32/64) plus the sentinel unset value
_NNS_END. -/
inductive TensorType
  | int8 | uint8 | int16 | uint16 | int32 | uint32 | int64 | uint64
  | float16 | float32 | float64 | nnsEnd
deriving DecidableEq, Repr

/-- Modelled from the spec: byte width of each element type; the sentinel
has size 0. -/
def gst_tensor_get_element_size : TensorType → Nat
  | .int8 | .uint8 => 1
  | .int16 | .uint16 | .float16 => 2
  | .int32 | .uint32 | .float32 => 4
  | .int64 | .uint64 | .float64 => 8
  | .nnsEnd => 0

/-- Wire format tag of a tensor set: Static or Flexible. -/
inductive TensorFormat
  | static
  | flexible
deriving DecidableEq, Repr

/-- Fixed compile-time rank limit (NNS_TENSOR_RANK_LIMIT). -/
def NNS_TENSOR_RANK_LIMIT : Nat := 16

/-- Pad a dimension list with zeros up to the fixed rank limit, mirroring the
C code's fixed-size dimension arrays whose unused trailing entries are 0. -/
def pad16 (l : List Nat) : List Nat :=
  l ++ List.replicate (NNS_TENSOR_RANK_LIMIT - l.length) 0

/-- One tensor descriptor: element type and ordered dimension sizes
(index 0 varies fastest). -/
structure GstTensorInfo where
  type : TensorType
  dimension : List Nat
deriving DecidableEq, Repr

/-- The all-unset tensor info produced by gst_tensor_info_init. -/
def initTensorInfo : GstTensorInfo :=
  { type := TensorType.nnsEnd, dimension := pad16 [] }

/-- Ordered collection of tensor descriptors plus the wire format tag. -/
structure GstTensorsInfo where
  num_tensors : Nat
  format : TensorFormat
  info : List GstTensorInfo
deriving DecidableEq, Repr

/-- Access to the n-th tensor info; the C code's fixed-size storage always
has an entry, modelled by returning the all-unset info past the end. -/
def getNthInfo (t : GstTensorsInfo) (i : Nat) : GstTensorInfo :=
  t.info.getD i initTensorInfo

/-- The empty tensors info produced by gst_tensors_info_init. -/
def initTensorsInfo : GstTensorsInfo :=
  { num_tensors := 0, format := TensorFormat.static, info := [] }

/-- A tensor set descriptor: tensors info plus frame rate as a rational. -/
structure GstTensorsConfig where
  info : GstTensorsInfo
  rate_n : Nat
  rate_d : Nat
deriving DecidableEq, Repr

/-- The empty config produced by gst_tensors_config_init. -/
def initTensorsConfig : GstTensorsConfig :=
  { info := initTensorsInfo, rate_n := 0, rate_d := 0 }

/-- Pad a list with a default element up to length n (the C storage for
tensor infos and dimensions is a fixed-size array, so a written slot always
exists). -/
def listPadTo {α : Type} (l : List α) (n : Nat) (d : α) : List α :=
  l ++ List.replicate (n - l.length) d

/-- Write list slot i, padding with a default first so the write always
lands (the C storage is a fixed-size array, so a written slot always
exists). -/
def listSetPad {α : Type} (l : List α) (i : Nat) (v d : α) : List α :=
  (listPadTo l (i + 1) d).set i v

/-- Write dimension slot di of tensor slot ti, mirroring a C assignment
info->info[ti].dimension[di] = v through the fixed-size storage. -/
def setTensorDim (t : GstTensorsInfo) (ti di v : Nat) : GstTensorsInfo :=
  let entry := getNthInfo t ti
  let entry2 := { entry with dimension := listSetPad entry.dimension di v 0 }
  { t with info := listSetPad t.info ti entry2 initTensorInfo }

/-- Modelled from the spec: trailing zeros of a dimension vector mark unused
ranks, so after the first zero every entry must be zero. -/
def zerosTail : List Nat → Bool
  | [] => true
  | 0 :: rest => rest.all (fun x => x == 0)
  | _ :: rest => zerosTail rest

/-- Modelled from the spec: a declared dimension vector is valid when its
first entry is non-zero and no non-zero entry follows a zero. -/
def dimIsValid (d : List Nat) : Bool :=
  decide (0 < d.headD 0) && zerosTail d

/-- Modelled from the spec: a tensor info is valid when the element type is
not the sentinel and the dimension vector is valid. -/
def gst_tensor_info_validate (ti : GstTensorInfo) : Bool :=
  if ti.type = TensorType.nnsEnd then false else dimIsValid ti.dimension

/-- Modelled from the spec: a tensors info is valid when it declares at least
one tensor and each declared tensor is valid. -/
def gst_tensors_info_validate (t : GstTensorsInfo) : Bool :=
  if t.num_tensors = 0 then false
  else (List.range t.num_tensors).all
    (fun i => gst_tensor_info_validate (getNthInfo t i))

/-- Modelled from the spec: structural equality of two tensors infos (same
tensor count, and per tensor the same element type and dimensions). -/
def gst_tensors_info_is_equal (a b : GstTensorsInfo) : Bool :=
  if a.num_tensors = b.num_tensors then
    (List.range a.num_tensors).all (fun i =>
      decide ((getNthInfo a i).type = (getNthInfo b i).type) &&
      decide ((getNthInfo a i).dimension = (getNthInfo b i).dimension))
  else false

/-- Modelled from the spec: two configs are equal when their formats agree,
their frame rates agree as fractions, and their infos are equal. -/
def gst_tensors_config_is_equal (a b : GstTensorsConfig) : Bool :=
  decide (a.rate_n * b.rate_d = b.rate_n * a.rate_d) &&
  decide (a.info.format = b.info.format) &&
  gst_tensors_info_is_equal a.info b.info

/-- A config describes the flexible wire format when its format tag says so. -/
def gst_tensors_config_is_flexible (c : GstTensorsConfig) : Bool :=
  decide (c.info.format = TensorFormat.flexible)

/-- Modelled from the spec: number of elements declared by a dimension vector
(product of the leading non-zero entries; 0 when the first entry is 0). -/
def dimElementCount (d : List Nat) : Nat :=
  if d.headD 0 = 0 then 0 else (d.takeWhile (fun x => x != 0)).prod

/-- Modelled from the spec: byte size of one static tensor. -/
def gst_tensor_info_get_size (ti : GstTensorInfo) : Nat :=
  gst_tensor_get_element_size ti.type * dimElementCount ti.dimension

/-- Modelled from the spec: total byte size of all declared tensors. -/
def gst_tensors_info_get_size (t : GstTensorsInfo) : Nat :=
  ((List.range t.num_tensors).map
    (fun i => gst_tensor_info_get_size (getNthInfo t i))).sum

/-- Modelled from the spec: a config validates when the frame rate is known
(positive denominator) or fully unknown (0/0) and, for the static format,
the tensors info validates; the flexible format carries placeholder infos. -/
def gst_tensors_config_validate (c : GstTensorsConfig) : Bool :=
  if 0 < c.rate_d ∨ (c.rate_n = 0 ∧ c.rate_d = 0) then
    (if c.info.format = TensorFormat.flexible then true
     else gst_tensors_info_validate c.info)
  else false

/-- Video pixel formats that appear in the converter source. -/
inductive GstVideoFormat
  | GRAY8 | GRAY16_BE | GRAY16_LE | RGB | BGR
  | RGBx | BGRx | xRGB | xBGR | RGBA | BGRA | ARGB | ABGR
  | RGBP | BGRP | I420 | other
deriving DecidableEq, Repr

/-- Video info extracted from fixed caps by the (external) GStreamer video
library: pixel format, width, height, frame rate and the total buffer size
GST_VIDEO_INFO_SIZE computed from the (possibly padded) strides. -/
structure GstVideoInfo where
  format : GstVideoFormat
  width : Nat
  height : Nat
  fps_n : Nat
  fps_d : Nat
  size : Nat
deriving DecidableEq, Repr

/-- Audio sample formats that appear in the converter source. -/
inductive GstAudioFormat
  | S8 | U8 | S16 | U16 | S32 | U32 | F32 | F64 | other
deriving DecidableEq, Repr

/-- Audio info extracted from fixed caps by the (external) GStreamer audio
library: sample format, channel count, sample rate and bytes per frame. -/
structure GstAudioInfo where
  format : GstAudioFormat
  channels : Nat
  rate : Nat
  bpf : Nat
deriving DecidableEq, Repr

/-- Fields of a text/x-raw caps structure used by the parser. -/
structure GstTextStructure where
  format : Option String
  framerate : Option (Nat × Nat)
deriving DecidableEq, Repr

/-- Fields of an application/octet-stream or other/tensors caps structure
used by the parsers (only the optional framerate is read). -/
structure GstStreamStructure where
  framerate : Option (Nat × Nat)
deriving DecidableEq, Repr

/-- The media kinds handled by the converter (media_type in the source). -/
inductive MediaType
  | video | audio | text | octet | tensor | any | invalid
deriving DecidableEq, Repr

/-- The outbound capability published on the src pad, built from a config.
Modelled from the spec: static caps carry the tensor count, per-tensor types
and dimensions and the frame rate; flexible caps carry only the format tag
and the frame rate (shapes are self-described per buffer). -/
structure GstPadCaps where
  format : TensorFormat
  num_tensors : Nat
  types : List TensorType
  dims : List (List Nat)
  rate_n : Nat
  rate_d : Nat
deriving DecidableEq, Repr

/-- Modelled from the spec: deterministic construction of the outbound caps
from a config (gst_tensor_pad_caps_from_config). -/
def gst_tensor_pad_caps_from_config (c : GstTensorsConfig) : GstPadCaps :=
  match c.info.format with
  | TensorFormat.flexible =>
    { format := TensorFormat.flexible, num_tensors := 0, types := [], dims := [],
      rate_n := c.rate_n, rate_d := c.rate_d }
  | TensorFormat.static =>
    { format := TensorFormat.static, num_tensors := c.info.num_tensors,
      types := (List.range c.info.num_tensors).map (fun i => (getNthInfo c.info i).type),
      dims := (List.range c.info.num_tensors).map (fun i => (getNthInfo c.info i).dimension),
      rate_n := c.rate_n, rate_d := c.rate_d }

/-- gst_tensor_pad_caps_is_flexible: whether the pad's current caps,
if any, negotiate the flexible format. -/
def padCapsIsFlexible : Option GstPadCaps → Bool
  | some pc => decide (pc.format = TensorFormat.flexible)
  | none => false

/-- One buffer pushed into the aggregation adapter: its payload bytes and
its original timestamps. -/
structure GstAdapterChunk where
  bytes : List Nat
  pts : Option Nat
  dts : Option Nat
deriving DecidableEq, Repr

/-- The byte aggregation adapter (GstAdapter, an external GStreamer
collaborator, modelled after its documented semantics): queued chunks, the
number of bytes already consumed from the head chunk, and the previous
pts/dts with their byte distances from the current read position. -/
structure GstAdapter where
  chunks : List GstAdapterChunk
  skip : Nat
  prevPts : Option Nat
  ptsDist : Nat
  prevDts : Option Nat
  dtsDist : Nat
deriving DecidableEq, Repr

/-- A fresh (or fully drained) adapter. -/
def emptyAdapter : GstAdapter :=
  { chunks := [], skip := 0, prevPts := none, ptsDist := 0,
    prevDts := none, dtsDist := 0 }

/-- gst_adapter_available: bytes buffered and not yet consumed. -/
def adapterAvail (a : GstAdapter) : Nat :=
  ((a.chunks.map (fun c => c.bytes.length)).sum) - a.skip

/-- gst_adapter_push: append a chunk; when the adapter was empty its
timestamps become the previous timestamps with distance 0 (invalid
timestamps leave the previous ones in place). -/
def adapterPush (a : GstAdapter) (c : GstAdapterChunk) : GstAdapter :=
  if adapterAvail a = 0 then
    { chunks := a.chunks ++ [c], skip := a.skip,
      prevPts := match c.pts with | some t => some t | none => a.prevPts,
      ptsDist := match c.pts with | some _ => 0 | none => a.ptsDist,
      prevDts := match c.dts with | some t => some t | none => a.prevDts,
      dtsDist := match c.dts with | some _ => 0 | none => a.dtsDist }
  else { a with chunks := a.chunks ++ [c] }

/-- Flushing loop: drop fully consumed head chunks; whenever a new head
chunk with a valid timestamp is installed the previous timestamp moves to
it with the remaining consumed distance. -/
def adapterFlushGo : List GstAdapterChunk → Nat → Option Nat → Nat →
    Option Nat → Nat → GstAdapter
  | [], _, pp, pd, dp, dd =>
    { chunks := [], skip := 0, prevPts := pp, ptsDist := pd,
      prevDts := dp, dtsDist := dd }
  | c :: cs, rem, pp, pd, dp, dd =>
    if c.bytes.length ≤ rem then
      match cs with
      | [] =>
        { chunks := [], skip := 0, prevPts := pp, ptsDist := pd,
          prevDts := dp, dtsDist := dd }
      | c2 :: cs2 =>
        let rem2 := rem - c.bytes.length
        let pz := match c2.pts with
          | some t => (some t, rem2)
          | none => (pp, pd)
        let dz := match c2.dts with
          | some t => (some t, rem2)
          | none => (dp, dd)
        adapterFlushGo (c2 :: cs2) rem2 pz.1 pz.2 dz.1 dz.2
    else
      { chunks := c :: cs, skip := rem, prevPts := pp, ptsDist := pd,
        prevDts := dp, dtsDist := dd }

/-- gst_adapter_flush (also performed by gst_adapter_take_buffer): consume
n bytes from the front, updating the previous-timestamp bookkeeping. -/
def adapterFlush (a : GstAdapter) (n : Nat) : GstAdapter :=
  adapterFlushGo a.chunks (a.skip + n) a.prevPts (a.ptsDist + n)
    a.prevDts (a.dtsDist + n)

/-- Concatenation of a list of byte lists. -/
def concatAll (ls : List (List Nat)) : List Nat := ls.foldr (· ++ ·) []

/-- The bytes returned by gst_adapter_take_buffer n (without the state
change, which adapterFlush performs). -/
def adapterTakeBytes (a : GstAdapter) (n : Nat) : List Nat :=
  ((concatAll (a.chunks.map (fun c => c.bytes))).drop a.skip).take n

/-- The element state of the converter (fields of struct GstTensorConverter
relevant to negotiation and the data path). -/
structure GstTensorConverter where
  tensors_info : GstTensorsInfo
  frames_per_tensor : Nat
  set_timestamp : Bool
  in_media_type : MediaType
  frame_size : Nat
  remove_padding : Bool
  do_not_append_header : Bool
  tensors_configured : Bool
  tensors_config : GstTensorsConfig
  srcpad_caps : Option GstPadCaps
  adapter : GstAdapter
  have_segment : Bool
  need_segment : Bool
  segment_start : Nat
  old_timestamp : Option Nat
  element_clock : Option Nat
deriving DecidableEq, Repr

/-- gst_tensor_converter_update_caps: recompute the outbound caps from the
current config and set them on the src pad only if they differ from the
currently published ones.  The Bool reports whether gst_pad_set_caps was
called (a downstream capability update happened). -/
def gst_tensor_converter_update_caps (self : GstTensorConverter) :
    GstTensorConverter × Bool :=
  let out := gst_tensor_pad_caps_from_config self.tensors_config
  match self.srcpad_caps with
  | none => ({ self with srcpad_caps := some out }, true)
  | some curr =>
    if curr = out then (self, false)
    else ({ self with srcpad_caps := some out }, true)

/-- gst_tensor_converter_video_stride: padding must be removed when the
format has rows padded to 4 bytes and the width is not a multiple of 4. -/
def gst_tensor_converter_video_stride (format : GstVideoFormat) (width : Nat) :
    Bool :=
  match format with
  | GstVideoFormat.GRAY8 | GstVideoFormat.RGB | GstVideoFormat.BGR
  | GstVideoFormat.I420 | GstVideoFormat.RGBP | GstVideoFormat.BGRP =>
    decide (width % 4 ≠ 0)
  | _ => false

/-- The (type, dimension[0], dimension[1], dimension[2]) written by the
format switch of gst_tensor_converter_parse_video; unsupported formats leave
the initialized values (sentinel type, zero dimensions). -/
def videoFormatQuad : GstVideoFormat → Nat → Nat →
    TensorType × Nat × Nat × Nat
  | GstVideoFormat.GRAY8, w, h => (TensorType.uint8, 1, w, h)
  | GstVideoFormat.GRAY16_BE, w, h => (TensorType.uint16, 1, w, h)
  | GstVideoFormat.GRAY16_LE, w, h => (TensorType.uint16, 1, w, h)
  | GstVideoFormat.RGB, w, h => (TensorType.uint8, 3, w, h)
  | GstVideoFormat.BGR, w, h => (TensorType.uint8, 3, w, h)
  | GstVideoFormat.RGBx, w, h => (TensorType.uint8, 4, w, h)
  | GstVideoFormat.BGRx, w, h => (TensorType.uint8, 4, w, h)
  | GstVideoFormat.xRGB, w, h => (TensorType.uint8, 4, w, h)
  | GstVideoFormat.xBGR, w, h => (TensorType.uint8, 4, w, h)
  | GstVideoFormat.RGBA, w, h => (TensorType.uint8, 4, w, h)
  | GstVideoFormat.BGRA, w, h => (TensorType.uint8, 4, w, h)
  | GstVideoFormat.ARGB, w, h => (TensorType.uint8, 4, w, h)
  | GstVideoFormat.ABGR, w, h => (TensorType.uint8, 4, w, h)
  | GstVideoFormat.RGBP, w, h => (TensorType.uint8, w, h, 3)
  | GstVideoFormat.BGRP, w, h => (TensorType.uint8, w, h, 3)
  | GstVideoFormat.I420, _, _ => (TensorType.nnsEnd, 0, 0, 0)
  | GstVideoFormat.other, _, _ => (TensorType.nnsEnd, 0, 0, 0)

/-- gst_tensor_converter_parse_video: derive the config from video info.
Returns the (possibly mutated) element state and the config on success.
Mirrors the source's mutation order: remove_padding is set as soon as the
stride check fires (also on the RGBP/BGRP failure return), and frame_size is
set right before the final supported-type check (also when that check
fails). -/
def gst_tensor_converter_parse_video (self : GstTensorConverter)
    (vinfo : GstVideoInfo) : GstTensorConverter × Option GstTensorsConfig :=
  let q := videoFormatQuad vinfo.format vinfo.width vinfo.height
  let cfg : GstTensorsConfig :=
    { info := { num_tensors := 1, format := TensorFormat.static,
                info := [{ type := q.1, dimension := pad16 [q.2.1, q.2.2.1, q.2.2.2, 1] }] },
      rate_n := vinfo.fps_n, rate_d := vinfo.fps_d }
  if gst_tensor_converter_video_stride vinfo.format vinfo.width then
    if vinfo.format = GstVideoFormat.RGBP ∨ vinfo.format = GstVideoFormat.BGRP then
      ({ self with remove_padding := true }, none)
    else
      let self2 := { self with remove_padding := true, frame_size := vinfo.size }
      if q.1 ≠ TensorType.nnsEnd then (self2, some cfg) else (self2, none)
  else
    let self2 := { self with frame_size := vinfo.size }
    if q.1 ≠ TensorType.nnsEnd then (self2, some cfg) else (self2, none)

/-- The element type written by the format switch of
gst_tensor_converter_parse_audio; unsupported formats leave the sentinel. -/
def audioFormatToType : GstAudioFormat → TensorType
  | GstAudioFormat.S8 => TensorType.int8
  | GstAudioFormat.U8 => TensorType.uint8
  | GstAudioFormat.S16 => TensorType.int16
  | GstAudioFormat.U16 => TensorType.uint16
  | GstAudioFormat.S32 => TensorType.int32
  | GstAudioFormat.U32 => TensorType.uint32
  | GstAudioFormat.F32 => TensorType.float32
  | GstAudioFormat.F64 => TensorType.float64
  | GstAudioFormat.other => TensorType.nnsEnd

/-- gst_tensor_converter_parse_audio: derive the config from audio info
(dimension order [channels, frames]); frame_size becomes the bytes-per-frame
of the stream (set also when the supported-type check fails). -/
def gst_tensor_converter_parse_audio (self : GstTensorConverter)
    (ainfo : GstAudioInfo) : GstTensorConverter × Option GstTensorsConfig :=
  let ty := audioFormatToType ainfo.format
  let cfg : GstTensorsConfig :=
    { info := { num_tensors := 1, format := TensorFormat.static,
                info := [{ type := ty, dimension := pad16 [ainfo.channels, 1] }] },
      rate_n := ainfo.rate, rate_d := 1 }
  let self2 := { self with frame_size := ainfo.bpf }
  if ty ≠ TensorType.nnsEnd then (self2, some cfg) else (self2, none)

/-- gst_tensor_converter_parse_text: the text size must come from the
user-declared tensors info; only utf8 is supported.  A caps structure
without a format field leaves the sentinel element type, which makes the
final check fail after frame_size was already written. -/
def gst_tensor_converter_parse_text (self : GstTensorConverter)
    (st : GstTextStructure) : GstTensorConverter × Option GstTensorsConfig :=
  let text_size := (getNthInfo self.tensors_info 0).dimension.getD 0 0
  if text_size = 0 then (self, none)
  else
    let ty : Option TensorType :=
      match st.format with
      | some f => if f = "utf8" then some TensorType.uint8 else none
      | none => some TensorType.nnsEnd
    match ty with
    | none => (self, none)
    | some ty =>
      let rz := st.framerate.getD (0, 1)
      let info0 : GstTensorInfo := { type := ty, dimension := pad16 [text_size, 1] }
      let cfg : GstTensorsConfig :=
        { info := { num_tensors := 1, format := TensorFormat.static, info := [info0] },
          rate_n := rz.1, rate_d := rz.2 }
      let self2 := { self with frame_size := gst_tensor_info_get_size info0 }
      if ty ≠ TensorType.nnsEnd then (self2, some cfg) else (self2, none)

/-- gst_tensor_converter_parse_octet: use the user-declared tensors info if
it validates, otherwise fall back to the downstream peer's config (flexible
or configured static); multi-tensor info and a flexible downstream are both
rejected when frames-per-tensor exceeds 1. -/
def gst_tensor_converter_parse_octet (self : GstTensorConverter)
    (st : GstStreamStructure) (peer : Option GstTensorsConfig) :
    GstTensorConverter × Option GstTensorsConfig :=
  let userValid := gst_tensors_info_validate self.tensors_info
  let flexible : Bool :=
    if userValid then false
    else match peer with
      | some p => gst_tensors_config_is_flexible p
      | none => false
  let configured : Bool :=
    if userValid then false
    else match peer with
      | some p => gst_tensors_info_validate p.info
      | none => false
  let info :=
    if userValid then self.tensors_info
    else match peer with
      | some p => if gst_tensors_info_validate p.info then p.info else self.tensors_info
      | none => self.tensors_info
  if userValid = false ∧ flexible = false ∧ configured = false then (self, none)
  else if 1 < self.frames_per_tensor ∧ 1 < info.num_tensors then (self, none)
  else if 1 < self.frames_per_tensor ∧ flexible = true then (self, none)
  else
    let rz := st.framerate.getD (0, 1)
    if flexible then
      let flexInfo : GstTensorsInfo :=
        { num_tensors := 1, format := TensorFormat.flexible,
          info := [{ type := TensorType.uint8, dimension := pad16 [1] }] }
      (self, some { info := flexInfo, rate_n := rz.1, rate_d := rz.2 })
    else
      let cfg : GstTensorsConfig := { info := info, rate_n := rz.1, rate_d := rz.2 }
      ({ self with frame_size := gst_tensors_info_get_size cfg.info }, some cfg)

/-- gst_tensor_converter_parse_tensor (flexible tensor input): aggregation
is rejected; user-declared info is adopted when present, otherwise a
placeholder single-tensor config is used and updated later per buffer. -/
def gst_tensor_converter_parse_tensor (self : GstTensorConverter)
    (st : GstStreamStructure) : GstTensorConverter × Option GstTensorsConfig :=
  if 1 < self.frames_per_tensor then (self, none)
  else
    let rz := st.framerate.getD (0, 1)
    if gst_tensors_info_validate self.tensors_info then
      let cfg : GstTensorsConfig :=
        { info := self.tensors_info, rate_n := rz.1, rate_d := rz.2 }
      ({ self with frame_size := gst_tensors_info_get_size self.tensors_info }, some cfg)
    else
      let placeholderInfo : GstTensorsInfo :=
        { num_tensors := 1, format := TensorFormat.static,
          info := [{ type := TensorType.uint8, dimension := pad16 [1] }] }
      (self, some { info := placeholderInfo, rate_n := rz.1, rate_d := rz.2 })

/-- A fixed capability event, carrying the media info already extracted by
the respective external GStreamer library. -/
inductive InCaps
  | video (v : GstVideoInfo)
  | audio (a : GstAudioInfo)
  | text (st : GstTextStructure)
  | octet (st : GstStreamStructure)
  | tensor (st : GstStreamStructure)
deriving DecidableEq, Repr

/-- Tail of gst_tensor_converter_parse_caps: write frames-per-tensor into
the frames dimension slot, validate the config, compare against the
user-declared info, and commit the negotiation state on success. -/
def parseCapsFinish (self : GstTensorConverter) (cfg : GstTensorsConfig)
    (frames_dim : Option Nat) (mt : MediaType) : GstTensorConverter × Bool :=
  let cfg2 := match frames_dim with
    | some d => { cfg with info := setTensorDim cfg.info 0 d self.frames_per_tensor }
    | none => cfg
  if gst_tensors_config_validate cfg2 = false then (self, false)
  else if gst_tensors_info_validate self.tensors_info = true ∧
      gst_tensors_info_is_equal self.tensors_info cfg2.info = false then
    (self, false)
  else
    let self2 := { self with
      in_media_type := mt,
      tensors_configured := true,
      tensors_config := cfg2 }
    (self2, true)

/-- gst_tensor_converter_parse_caps: dispatch to the media-kind parser and
finish negotiation.  The peer argument models
gst_tensors_config_from_peer on the src pad. -/
def gst_tensor_converter_parse_caps (self : GstTensorConverter) (caps : InCaps)
    (peer : Option GstTensorsConfig) : GstTensorConverter × Bool :=
  match caps with
  | InCaps.video v =>
    match gst_tensor_converter_parse_video self v with
    | (s, none) => (s, false)
    | (s, some cfg) => parseCapsFinish s cfg (some 3) MediaType.video
  | InCaps.audio a =>
    match gst_tensor_converter_parse_audio self a with
    | (s, none) => (s, false)
    | (s, some cfg) => parseCapsFinish s cfg (some 1) MediaType.audio
  | InCaps.text st =>
    match gst_tensor_converter_parse_text self st with
    | (s, none) => (s, false)
    | (s, some cfg) => parseCapsFinish s cfg (some 1) MediaType.text
  | InCaps.octet st =>
    match gst_tensor_converter_parse_octet self st peer with
    | (s, none) => (s, false)
    | (s, some cfg) => parseCapsFinish s cfg none MediaType.octet
  | InCaps.tensor st =>
    match gst_tensor_converter_parse_tensor self st with
    | (s, none) => (s, false)
    | (s, some cfg) => parseCapsFinish s cfg none MediaType.tensor

/-- GStreamer flow return values relevant here (GST_FLOW_OK / GST_FLOW_ERROR). -/
inductive GstFlowReturn
  | ok
  | error
deriving DecidableEq, Repr

/-- gst_util_uint64_scale_int: val * num / denom with integer division. -/
def gst_util_uint64_scale_int (val num denom : Nat) : Nat :=
  val * num / denom

/-- One second in GStreamer clock-time units (nanoseconds). -/
def GST_SECOND : Nat := 1000000000

/-- Modelled from the spec: the self-describing wire format prefixes each
tensor record with a fixed-size header; this is its byte size
(gst_tensor_meta_info_get_header_size). -/
def META_HEADER_SIZE : Nat := 128

/-- An incoming media data buffer: payload bytes and buffer timestamps. -/
structure MediaBuf where
  bytes : List Nat
  pts : Option Nat
  dts : Option Nat
  duration : Option Nat
deriving DecidableEq, Repr

/-- An outgoing buffer: the byte sizes of its memory blocks, its payload
bytes and its timestamps. -/
structure OutBuf where
  mems : List Nat
  bytes : List Nat
  pts : Option Nat
  dts : Option Nat
  duration : Option Nat
deriving DecidableEq, Repr

/-- The row-copy loop of the video depadding path
(gsttensor_converter.c chain function, video case): for each of the height
rows copy the first size bytes of the offset-strided source row. -/
def depadRows (src : List Nat) (size offset : Nat) : Nat → List Nat
  | 0 => []
  | h + 1 => depadRows src size offset h ++ (src.drop (h * offset)).take size

/-- The private routine _gst_tensor_converter_chain_segment: on the first buffer after a
BYTES-format segment event, convert the segment start from bytes to time
and push a TIME segment downstream.  A g_assert checks have_segment; its
failure is modelled as none. -/
def _gst_tensor_converter_chain_segment (self : GstTensorConverter)
    (frame_size : Nat) : Option GstTensorConverter :=
  if self.need_segment then
    if self.have_segment = false then none
    else
      let config := self.tensors_config
      let have_framerate := 0 < config.rate_n ∧ 0 < config.rate_d
      let start := self.segment_start
      let start2 :=
        if have_framerate ∧ 0 < start then
          gst_util_uint64_scale_int (start * config.rate_d) GST_SECOND
            (frame_size * config.rate_n)
        else 0
      some { self with segment_start := start2, need_segment := false }
  else some self

/-- The private routine _gst_tensor_converter_chain_timestamp: fill in an invalid duration from
the frame rate, fill in an invalid pts from the previous timestamp (or the
segment start / element clock), and remember the buffer timestamp. -/
def _gst_tensor_converter_chain_timestamp (self : GstTensorConverter)
    (pts duration : Option Nat) (frames_in : Nat) :
    GstTensorConverter × Option Nat × Option Nat :=
  if self.set_timestamp then
    let config := self.tensors_config
    let have_framerate := 0 < config.rate_n ∧ 0 < config.rate_d
    let duration2 := match duration with
      | some d => some d
      | none =>
        if have_framerate then
          some (gst_util_uint64_scale_int (frames_in * config.rate_d)
            GST_SECOND config.rate_n)
        else none
    let pts2 := match pts with
      | some p => some p
      | none =>
        if have_framerate then
          match self.old_timestamp with
          | some old => some (old + duration2.getD 0)
          | none => some self.segment_start
        else
          match self.element_clock with
          | some now => some now
          | none => some self.segment_start
    ({ self with old_timestamp := pts2 }, pts2, duration2)
  else
    ({ self with old_timestamp := pts }, pts, duration)

/-- The private routine _gst_tensor_converter_chain_push: for octet input with a multi-tensor
config split the buffer into the per-tensor memory blocks (a g_assert
requires frames-per-tensor 1 there, modelled as none on violation), then
prefix each block with the flexible header when the src pad negotiated the
flexible format. -/
def _gst_tensor_converter_chain_push (self : GstTensorConverter)
    (mems : List Nat) (bytes : List Nat) (pts dts duration : Option Nat) :
    Option OutBuf :=
  let split : Option (List Nat) :=
    if self.in_media_type = MediaType.octet then
      if 1 < self.tensors_config.info.num_tensors then
        if self.frames_per_tensor ≠ 1 then none
        else some ((List.range self.tensors_config.info.num_tensors).map
          (fun i => gst_tensor_info_get_size (getNthInfo self.tensors_config.info i)))
      else some mems
    else some mems
  match split with
  | none => none
  | some ms =>
    let ms2 :=
      if self.do_not_append_header = false ∧ padCapsIsFlexible self.srcpad_caps then
        ms.map (fun m => META_HEADER_SIZE + m)
      else ms
    some { mems := ms2, bytes := bytes, pts := pts, dts := dts, duration := duration }

/-- The while loop of _gst_tensor_converter_chain_chunk: as long as the
adapter holds one output frame, reconstruct its timestamps from the
previous-timestamp bookkeeping, take the frame and push it.  The fuel
argument bounds the iteration count (the loop consumes out_size bytes per
iteration, so adapterAvail + 1 iterations always suffice when out_size is
positive); fuel exhaustion reports an error. -/
def chainChunkLoop (self : GstTensorConverter) (out_size frames_in frame_size : Nat)
    (duration : Option Nat) : Nat → GstAdapter → List OutBuf →
    GstAdapter × List OutBuf × GstFlowReturn
  | 0, a, acc => (a, acc.reverse, GstFlowReturn.error)
  | fuel + 1, a, acc =>
    if out_size ≤ adapterAvail a then
      let config := self.tensors_config
      let have_framerate := 0 < config.rate_n ∧ 0 < config.rate_d
      let pts :=
        if 1 < frames_in ∧ have_framerate then
          a.prevPts.map (fun p => p + gst_util_uint64_scale_int
            (a.ptsDist * config.rate_d) GST_SECOND (config.rate_n * frame_size))
        else a.prevPts
      let dts :=
        if 1 < frames_in ∧ have_framerate then
          a.prevDts.map (fun p => p + gst_util_uint64_scale_int
            (a.dtsDist * config.rate_d) GST_SECOND (config.rate_n * frame_size))
        else a.prevDts
      let outBytes := adapterTakeBytes a out_size
      let a2 := adapterFlush a out_size
      match _gst_tensor_converter_chain_push self [outBytes.length] outBytes pts dts duration with
      | none => (a2, acc.reverse, GstFlowReturn.error)
      | some ob => chainChunkLoop self out_size frames_in frame_size duration fuel a2 (ob :: acc)
    else (a, acc.reverse, GstFlowReturn.ok)

/-- The private routine _gst_tensor_converter_chain_chunk: scale the duration by the
output/input frame ratio, push the buffer into the adapter for its
substream and emit every complete output frame. -/
def _gst_tensor_converter_chain_chunk (self : GstTensorConverter)
    (inbuf : MediaBuf) (frames_in frames_out frame_size : Nat) :
    GstTensorConverter × List OutBuf × GstFlowReturn :=
  let duration := inbuf.duration.map
    (fun d => gst_util_uint64_scale_int d frames_out frames_in)
  let a := adapterPush self.adapter
    { bytes := inbuf.bytes, pts := inbuf.pts, dts := inbuf.dts }
  let out_size := frames_out * frame_size
  let z := chainChunkLoop self out_size frames_in frame_size duration
    (adapterAvail a + 1) a []
  ({ self with adapter := z.1 }, z.2.1, z.2.2)

/-- Common tail of the chain function after the per-media-kind preparation:
segment conversion, timestamp assignment, then either a direct push (when
input and output frame counts agree) or the windowing engine. -/
def chainAfter (self : GstTensorConverter) (mems : List Nat) (inbuf : MediaBuf)
    (frames_in frames_out frame_size : Nat) :
    GstTensorConverter × List OutBuf × GstFlowReturn :=
  match _gst_tensor_converter_chain_segment self frame_size with
  | none => (self, [], GstFlowReturn.error)
  | some s2 =>
    let tz := _gst_tensor_converter_chain_timestamp s2 inbuf.pts inbuf.duration frames_in
    let s3 := tz.1
    let pts := tz.2.1
    let duration := tz.2.2
    if frames_in = frames_out then
      match _gst_tensor_converter_chain_push s3 mems inbuf.bytes pts inbuf.dts duration with
      | none => (s3, [], GstFlowReturn.error)
      | some ob => (s3, [ob], GstFlowReturn.ok)
    else
      _gst_tensor_converter_chain_chunk s3
        { bytes := inbuf.bytes, pts := pts, dts := inbuf.dts, duration := duration }
        frames_in frames_out frame_size

/-- The per-media-kind preparation step of the chain function: compute
frames_in and frame_size, and rewrite the buffer (depadding for padded
video rows, truncation/zero-fill for text, per-buffer dimension update for
flexible octet).  Returns none for the g_assert violations of the source
(video buffer not exactly one frame, depadding with already-aligned rows,
octet buffer size not a multiple of the frame size). -/
def chainPrep (self : GstTensorConverter) (buf : MediaBuf) :
    Option (GstTensorConverter × MediaBuf × Nat × Nat) :=
  let buf_size := buf.bytes.length
  match self.in_media_type with
  | MediaType.video =>
    let info0 := getNthInfo self.tensors_config.info 0
    let color := info0.dimension.getD 0 0
    let width := info0.dimension.getD 1 0
    let height := info0.dimension.getD 2 0
    let es := gst_tensor_get_element_size info0.type
    let frame_size := es * color * width * height
    if buf_size / self.frame_size ≠ 1 then none
    else if self.remove_padding then
      let size := es * color * width
      if size % 4 = 0 then none
      else
        let offset := size + (4 - size % 4)
        some (self, { buf with bytes := depadRows buf.bytes size offset height },
          1, frame_size)
    else some (self, buf, 1, frame_size)
  | MediaType.audio =>
    some (self, buf, buf_size / self.frame_size, self.frame_size)
  | MediaType.text =>
    let frame_size := self.frame_size
    if buf_size ≠ frame_size then
      let block := min buf_size frame_size
      let bytes2 := buf.bytes.take block ++ List.replicate (frame_size - block) 0
      some (self, { buf with bytes := bytes2 }, 1, frame_size)
    else some (self, buf, 1, frame_size)
  | MediaType.octet =>
    if gst_tensors_config_is_flexible self.tensors_config then
      let cfg := self.tensors_config
      let cfg2 := { cfg with info := setTensorDim cfg.info 0 0 buf_size }
      some ({ self with tensors_config := cfg2 }, buf, 1, buf_size)
    else
      if buf_size % self.frame_size ≠ 0 then none
      else some (self, buf, buf_size / self.frame_size, self.frame_size)
  | _ => none

/-- gst_tensor_converter_chain for the media kinds video / audio / text /
octet: reject empty buffers, check the configured flag (a g_assert),
prepare the buffer per media kind and run the common tail.  The _NNS_TENSOR
branch is gst_tensor_converter_chain_tensor below; the custom-converter
branch (_NNS_MEDIA_ANY) dispatches to out-of-scope collaborators and is not
embedded. -/
def gst_tensor_converter_chain (self : GstTensorConverter) (buf : MediaBuf) :
    GstTensorConverter × List OutBuf × GstFlowReturn :=
  if buf.bytes.length = 0 then (self, [], GstFlowReturn.error)
  else if self.tensors_configured = false then (self, [], GstFlowReturn.error)
  else
    match chainPrep self buf with
    | none => (self, [], GstFlowReturn.error)
    | some (s1, inbuf, frames_in, frame_size) =>
      chainAfter s1 [inbuf.bytes.length] inbuf frames_in
        self.frames_per_tensor frame_size

/-- The self-describing header of one flexible wire record
(GstTensorMetaInfo): element type and dimensions. -/
structure GstTensorMetaInfo where
  type : TensorType
  dims : List Nat
deriving DecidableEq, Repr

/-- One wire record of a flexible tensor buffer: its parsed header and its
payload bytes; on the wire the record occupies META_HEADER_SIZE +
payload-length bytes. -/
structure FlexRecord where
  meta : GstTensorMetaInfo
  payload : List Nat
deriving DecidableEq, Repr

/-- Total wire size of a flexible record (header plus payload). -/
def flexRecordSize (r : FlexRecord) : Nat :=
  META_HEADER_SIZE + r.payload.length

/-- An incoming flexible tensor buffer: its records and timestamps. -/
structure FlexBuf where
  records : List FlexRecord
  pts : Option Nat
  dts : Option Nat
  duration : Option Nat
deriving DecidableEq, Repr

/-- The record loop of the _NNS_TENSOR chain branch: for each record, the
memory size minus the header size must exactly equal the byte size declared
by the record's own header (gst_tensor_meta_info_convert followed by
gst_tensor_info_get_size); the first mismatch aborts the whole buffer. -/
def recordsToInfos : List FlexRecord → Option (List GstTensorInfo)
  | [] => some []
  | r :: rs =>
    let s1 := flexRecordSize r - META_HEADER_SIZE
    let info : GstTensorInfo := { type := r.meta.type, dimension := r.meta.dims }
    let s2 := gst_tensor_info_get_size info
    if s1 = s2 then (recordsToInfos rs).map (fun l => info :: l) else none

/-- The _NNS_TENSOR branch of gst_tensor_converter_chain (flexible-to-static
conversion): parse every record header, verify each payload size against
its header-declared size, then compare the recovered config with the
negotiated one — a difference is an error when user-declared tensor info
exists and otherwise re-configures the element and republishes the src
caps.  The surviving buffer (payload memories with headers stripped) then
runs the common chain tail. -/
def gst_tensor_converter_chain_tensor (self : GstTensorConverter)
    (fbuf : FlexBuf) : GstTensorConverter × List OutBuf × GstFlowReturn :=
  let buf_size := (fbuf.records.map flexRecordSize).sum
  if buf_size = 0 then (self, [], GstFlowReturn.error)
  else if self.tensors_configured = false then (self, [], GstFlowReturn.error)
  else
    match recordsToInfos fbuf.records with
    | none => (self, [], GstFlowReturn.error)
    | some infos =>
      let tmpInfo : GstTensorsInfo :=
        { num_tensors := fbuf.records.length, format := TensorFormat.static,
          info := infos }
      let tmp : GstTensorsConfig :=
        { info := tmpInfo, rate_n := self.tensors_config.rate_n,
          rate_d := self.tensors_config.rate_d }
      let upd : Option GstTensorConverter :=
        if gst_tensors_config_is_equal self.tensors_config tmp = false then
          if gst_tensors_info_validate self.tensors_info then none
          else some (gst_tensor_converter_update_caps
            { self with tensors_config := tmp }).1
        else some self
      match upd with
      | none => (self, [], GstFlowReturn.error)
      | some s1 =>
        let mems := fbuf.records.map (fun r => r.payload.length)
        let bytes := concatAll (fbuf.records.map (fun r => r.payload))
        chainAfter s1 mems
          { bytes := bytes, pts := fbuf.pts, dts := fbuf.dts, duration := fbuf.duration }
          1 s1.frames_per_tensor s1.frame_size

/-!
Claim-side vocabulary and concrete fixtures used by the theorems below.
-/

/-- Following the spec's words: the channel (component) count of each pixel
format under the media convention, used to state the video-descriptor claim
against the parser. -/
def spec_component_count : GstVideoFormat → Nat
  | GstVideoFormat.GRAY8 | GstVideoFormat.GRAY16_BE | GstVideoFormat.GRAY16_LE => 1
  | GstVideoFormat.RGB | GstVideoFormat.BGR => 3
  | GstVideoFormat.RGBx | GstVideoFormat.BGRx | GstVideoFormat.xRGB
  | GstVideoFormat.xBGR | GstVideoFormat.RGBA | GstVideoFormat.BGRA
  | GstVideoFormat.ARGB | GstVideoFormat.ABGR => 4
  | GstVideoFormat.RGBP | GstVideoFormat.BGRP => 3
  | GstVideoFormat.I420 => 3
  | GstVideoFormat.other => 0

/-- The effective tensors info of octet negotiation is multi-tensor: the
user-declared info when it validates, otherwise a configured downstream
peer's info, declares more than one tensor. -/
def octetMultiTensor (s : GstTensorConverter) (peer : Option GstTensorsConfig) :
    Bool :=
  if gst_tensors_info_validate s.tensors_info then
    decide (1 < s.tensors_info.num_tensors)
  else match peer with
    | some p =>
      if gst_tensors_info_validate p.info then decide (1 < p.info.num_tensors)
      else false
    | none => false

/-- Octet negotiation sees a flexible downstream descriptor: no valid
user-declared info and the peer negotiated the flexible format. -/
def octetFlexibleDownstream (s : GstTensorConverter)
    (peer : Option GstTensorsConfig) : Bool :=
  if gst_tensors_info_validate s.tensors_info then false
  else match peer with
    | some p => gst_tensors_config_is_flexible p
    | none => false

/-- A freshly initialized element (gst_tensor_converter_init defaults). -/
def freshState : GstTensorConverter :=
  { tensors_info := initTensorsInfo, frames_per_tensor := 1, set_timestamp := true,
    in_media_type := MediaType.invalid, frame_size := 0, remove_padding := false,
    do_not_append_header := false, tensors_configured := false,
    tensors_config := initTensorsConfig, srcpad_caps := none,
    adapter := emptyAdapter, have_segment := false, need_segment := false,
    segment_start := 0, old_timestamp := none, element_clock := none }

/-- Audio config fixture: one tensor of uint8 [2 channels, 2 frames],
frame rate 1000/1. -/
def audioCfg1000 : GstTensorsConfig :=
  { info := { num_tensors := 1, format := TensorFormat.static,
              info := [{ type := TensorType.uint8, dimension := pad16 [2, 2] }] },
    rate_n := 1000, rate_d := 1 }

/-- Element state negotiated for the audio fixture: frame_size 2 bytes,
frames-per-tensor 2. -/
def c2State : GstTensorConverter :=
  { tensors_info := initTensorsInfo, frames_per_tensor := 2, set_timestamp := true,
    in_media_type := MediaType.audio, frame_size := 2, remove_padding := false,
    do_not_append_header := false, tensors_configured := true,
    tensors_config := audioCfg1000,
    srcpad_caps := some (gst_tensor_pad_caps_from_config audioCfg1000),
    adapter := emptyAdapter, have_segment := true, need_segment := false,
    segment_start := 0, old_timestamp := none, element_clock := none }

/-- GRAY8 width-5 video config fixture (dimensions [1, 5, height, 1]). -/
def gray8Cfg (h : Nat) : GstTensorsConfig :=
  { info := { num_tensors := 1, format := TensorFormat.static,
              info := [{ type := TensorType.uint8, dimension := pad16 [1, 5, h, 1] }] },
    rate_n := 30, rate_d := 1 }

/-- Element state negotiated for GRAY8 width 5: the source row stride is
padded to 8 bytes, so GST_VIDEO_INFO_SIZE is 8 * height and the depadding
flag is set. -/
def gray8State (h : Nat) : GstTensorConverter :=
  { tensors_info := initTensorsInfo, frames_per_tensor := 1, set_timestamp := false,
    in_media_type := MediaType.video, frame_size := 8 * h, remove_padding := true,
    do_not_append_header := false, tensors_configured := true,
    tensors_config := gray8Cfg h, srcpad_caps := none,
    adapter := emptyAdapter, have_segment := false, need_segment := false,
    segment_start := 0, old_timestamp := none, element_clock := none }

/-- Static single-tensor config fixture expecting 4 bytes per buffer. -/
def staticCfg4 : GstTensorsConfig :=
  { info := { num_tensors := 1, format := TensorFormat.static,
              info := [{ type := TensorType.uint8, dimension := pad16 [4] }] },
    rate_n := 30, rate_d := 1 }

/-- Element state for flexible-to-static conversion with no user-declared
tensor info, statically negotiated for 4-byte tensors. -/
def c3State : GstTensorConverter :=
  { tensors_info := initTensorsInfo, frames_per_tensor := 1, set_timestamp := false,
    in_media_type := MediaType.tensor, frame_size := 4, remove_padding := false,
    do_not_append_header := false, tensors_configured := true,
    tensors_config := staticCfg4,
    srcpad_caps := some (gst_tensor_pad_caps_from_config staticCfg4),
    adapter := emptyAdapter, have_segment := false, need_segment := false,
    segment_start := 0, old_timestamp := none, element_clock := none }

/-- A flexible record whose header declares a 5-element uint8 tensor and
whose payload indeed has 5 bytes (consistent with its own header but one
byte longer than staticCfg4 expects). -/
def drift5Record : FlexRecord :=
  { meta := { type := TensorType.uint8, dims := pad16 [5] }, payload := [9, 9, 9, 9, 9] }

/-- User-declared tensors info with two tensors (input-dim=4.4,
input-type=uint8.uint8). -/
def user2Info : GstTensorsInfo :=
  { num_tensors := 2, format := TensorFormat.static,
    info := [{ type := TensorType.uint8, dimension := pad16 [4] },
             { type := TensorType.uint8, dimension := pad16 [4] }] }

/-- Element state with two user-declared tensors and frames-per-tensor 2. -/
def c5State : GstTensorConverter :=
  { freshState with tensors_info := user2Info, frames_per_tensor := 2 }

/-- User-declared tensors info matching a mono S16 audio stream. -/
def c7UserInfo : GstTensorsInfo :=
  { num_tensors := 1, format := TensorFormat.static,
    info := [{ type := TensorType.int16, dimension := pad16 [1, 1] }] }

/-- Element state with the mono-S16 user-declared info. -/
def c7State : GstTensorConverter :=
  { freshState with tensors_info := c7UserInfo }

/-- Audio info fixture: mono S16 at 16000 Hz, 2 bytes per frame. -/
def c7Audio : GstAudioInfo :=
  { format := GstAudioFormat.S16, channels := 1, rate := 16000, bpf := 2 }

/-- The flexible config produced by octet negotiation against a flexible
downstream descriptor. -/
def flexCfg : GstTensorsConfig :=
  { info := { num_tensors := 1, format := TensorFormat.flexible,
              info := [{ type := TensorType.uint8, dimension := pad16 [1] }] },
    rate_n := 0, rate_d := 1 }

/-- Element state negotiated for octet input with the flexible format. -/
def c9State : GstTensorConverter :=
  { freshState with
    in_media_type := MediaType.octet,
    tensors_configured := true,
    tensors_config := flexCfg,
    srcpad_caps := some (gst_tensor_pad_caps_from_config flexCfg) }

/-- Video info fixture: RGBP 8x4 at 30 fps. -/
def rgbp8Video : GstVideoInfo :=
  { format := GstVideoFormat.RGBP, width := 8, height := 4, fps_n := 30,
    fps_d := 1, size := 96 }

/-- Video info fixture: RGBP 5x4 at 30 fps (width not a multiple of 4). -/
def rgbp5Video : GstVideoInfo :=
  { format := GstVideoFormat.RGBP, width := 5, height := 4, fps_n := 30,
    fps_d := 1, size := 96 }

/-- Video info fixture: GRAY8 4x4 at 30 fps, size 16. -/
def gray8x4Video : GstVideoInfo :=
  { format := GstVideoFormat.GRAY8, width := 4, height := 4, fps_n := 30,
    fps_d := 1, size := 16 }

/-- Video info fixture with a pixel format the parser does not support. -/
def unsupportedVideo : GstVideoInfo :=
  { format := GstVideoFormat.other, width := 4, height := 4, fps_n := 30,
    fps_d := 1, size := 64 }

/-- A flexible buffer whose single record declares a 5-byte uint8 tensor but
carries only 4 payload bytes (inconsistent with its own header). -/
def c3ShortBuf : FlexBuf :=
  { records := [{ meta := { type := TensorType.uint8, dims := pad16 [5] },
                  payload := [9, 9, 9, 9] }],
    pts := some 3, dts := none, duration := none }

/-- A flexible buffer whose single record is consistent with its own header
(5 payload bytes, header declares uint8 of 5 elements) but one byte longer
than the statically negotiated 4-byte tensor of c3State. -/
def c3DriftBuf : FlexBuf :=
  { records := [drift5Record], pts := some 3, dts := none, duration := none }

/-- The descriptor derived for a GRAY8 4x4 video at 30 fps. -/
def gray8x4Cfg : GstTensorsConfig :=
  { info := { num_tensors := 1, format := TensorFormat.static,
              info := [{ type := TensorType.uint8, dimension := pad16 [1, 4, 4, 1] }] },
    rate_n := 30, rate_d := 1 }

/-- A concrete 16-byte source frame (two padded GRAY8 rows of stride 8). -/
def c8Src : List Nat :=
  [10, 11, 12, 13, 14, 15, 16, 17, 20, 21, 22, 23, 24, 25, 26, 27]

/-!
Helper lemmas shared by the claim theorems below.
-/

theorem getD_append_left (a b : List Nat) (i : Nat) (h : i < a.length) :
    (a ++ b).getD i 0 = a.getD i 0 := by
  simp [List.getD, List.getElem?_append, h]

theorem getD_append_right (a b : List Nat) (i : Nat) (h : a.length ≤ i) :
    (a ++ b).getD i 0 = b.getD (i - a.length) 0 := by
  simp [List.getD, List.getElem?_append_right h]

theorem getD_take_of_lt (l : List Nat) (n i : Nat) (h : i < n) :
    (l.take n).getD i 0 = l.getD i 0 := by
  simp [List.getD, List.getElem?_take, h]

theorem getD_drop (l : List Nat) (n i : Nat) :
    (l.drop n).getD i 0 = l.getD (n + i) 0 := by
  simp [List.getD, List.getElem?_drop]

theorem depadRows_length (src : List Nat) (size offset : Nat)
    (hso : size ≤ offset) :
    ∀ n, n * offset ≤ src.length → (depadRows src size offset n).length = n * size := by
  intro n
  induction n with
  | zero => intro _; simp [depadRows]
  | succ k ih =>
    intro h
    have hmul : (k + 1) * offset = k * offset + offset := Nat.succ_mul k offset
    have hk : k * offset ≤ src.length := by omega
    have hrest : offset ≤ src.length - k * offset := by omega
    have hlen := ih hk
    simp only [depadRows, List.length_append, hlen, List.length_take,
      List.length_drop]
    have hmin : min size (src.length - k * offset) = size := by omega
    rw [hmin, Nat.succ_mul]

theorem depadRows_getD (src : List Nat) (size offset : Nat)
    (hso : size ≤ offset) :
    ∀ n, n * offset ≤ src.length → ∀ r i, r < n → i < size →
      (depadRows src size offset n).getD (r * size + i) 0 =
        src.getD (r * offset + i) 0 := by
  intro n
  induction n with
  | zero => intro _ r i hr _; omega
  | succ k ih =>
    intro h r i hr hi
    have hmul : (k + 1) * offset = k * offset + offset := Nat.succ_mul k offset
    have hk : k * offset ≤ src.length := by omega
    have hlenA : (depadRows src size offset k).length = k * size :=
      depadRows_length src size offset hso k hk
    by_cases hrk : r < k
    · have hidx : r * size + i < k * size := by
        have h1 : r * size + size ≤ k * size := by
          have h2 := Nat.succ_mul r size
          have h3 := Nat.mul_le_mul_right size hrk
          omega
        omega
      rw [depadRows, getD_append_left _ _ _ (by rw [hlenA]; exact hidx)]
      exact ih hk r i hrk hi
    · have hrk2 : r = k := by omega
      subst hrk2
      rw [depadRows, getD_append_right _ _ _ (by rw [hlenA]; omega)]
      have hsub : r * size + i - (depadRows src size offset r).length = i := by
        rw [hlenA]; omega
      rw [hsub, getD_take_of_lt _ _ _ hi, getD_drop]

theorem setTensorDim_num (t : GstTensorsInfo) (ti di v : Nat) :
    (setTensorDim t ti di v).num_tensors = t.num_tensors := rfl

theorem setTensorDim_dim0 (t : GstTensorsInfo) (v : Nat) :
    (getNthInfo (setTensorDim t 0 0 v) 0).dimension.getD 0 0 = v := by
  unfold setTensorDim getNthInfo listSetPad listPadTo
  cases t.info with
  | nil => simp [initTensorInfo, pad16, NNS_TENSOR_RANK_LIMIT, List.replicate]
  | cons a l =>
    simp
    cases a.dimension with
    | nil => simp
    | cons x xs => simp

theorem parse_video_preserves (s : GstTensorConverter) (v : GstVideoInfo) :
    (gst_tensor_converter_parse_video s v).1.tensors_config = s.tensors_config ∧
    (gst_tensor_converter_parse_video s v).1.tensors_configured = s.tensors_configured ∧
    (gst_tensor_converter_parse_video s v).1.in_media_type = s.in_media_type := by
  refine ⟨?_, ?_, ?_⟩ <;> simp only [gst_tensor_converter_parse_video] <;>
    (repeat' split) <;> rfl

theorem parse_audio_preserves (s : GstTensorConverter) (a : GstAudioInfo) :
    (gst_tensor_converter_parse_audio s a).1.tensors_config = s.tensors_config ∧
    (gst_tensor_converter_parse_audio s a).1.tensors_configured = s.tensors_configured ∧
    (gst_tensor_converter_parse_audio s a).1.in_media_type = s.in_media_type := by
  refine ⟨?_, ?_, ?_⟩ <;> simp only [gst_tensor_converter_parse_audio] <;>
    (repeat' split) <;> rfl

theorem parse_text_preserves (s : GstTensorConverter) (st : GstTextStructure) :
    (gst_tensor_converter_parse_text s st).1.tensors_config = s.tensors_config ∧
    (gst_tensor_converter_parse_text s st).1.tensors_configured = s.tensors_configured ∧
    (gst_tensor_converter_parse_text s st).1.in_media_type = s.in_media_type := by
  refine ⟨?_, ?_, ?_⟩ <;> simp only [gst_tensor_converter_parse_text] <;>
    (repeat' split) <;> rfl

theorem parse_octet_preserves (s : GstTensorConverter) (st : GstStreamStructure)
    (peer : Option GstTensorsConfig) :
    (gst_tensor_converter_parse_octet s st peer).1.tensors_config = s.tensors_config ∧
    (gst_tensor_converter_parse_octet s st peer).1.tensors_configured = s.tensors_configured ∧
    (gst_tensor_converter_parse_octet s st peer).1.in_media_type = s.in_media_type := by
  refine ⟨?_, ?_, ?_⟩ <;> simp only [gst_tensor_converter_parse_octet] <;>
    (repeat' split) <;> rfl

theorem parse_tensor_preserves (s : GstTensorConverter) (st : GstStreamStructure) :
    (gst_tensor_converter_parse_tensor s st).1.tensors_config = s.tensors_config ∧
    (gst_tensor_converter_parse_tensor s st).1.tensors_configured = s.tensors_configured ∧
    (gst_tensor_converter_parse_tensor s st).1.in_media_type = s.in_media_type := by
  refine ⟨?_, ?_, ?_⟩ <;> simp only [gst_tensor_converter_parse_tensor] <;>
    (repeat' split) <;> rfl

theorem parse_video_info_eq (s : GstTensorConverter) (v : GstVideoInfo) :
    (gst_tensor_converter_parse_video s v).1.tensors_info = s.tensors_info := by
  simp only [gst_tensor_converter_parse_video]
  (repeat' split) <;> rfl

theorem parse_audio_info_eq (s : GstTensorConverter) (a : GstAudioInfo) :
    (gst_tensor_converter_parse_audio s a).1.tensors_info = s.tensors_info := by
  simp only [gst_tensor_converter_parse_audio]
  (repeat' split) <;> rfl

theorem parse_text_info_eq (s : GstTensorConverter) (st : GstTextStructure) :
    (gst_tensor_converter_parse_text s st).1.tensors_info = s.tensors_info := by
  simp only [gst_tensor_converter_parse_text]
  (repeat' split) <;> rfl

theorem parse_octet_info_eq (s : GstTensorConverter) (st : GstStreamStructure)
    (peer : Option GstTensorsConfig) :
    (gst_tensor_converter_parse_octet s st peer).1.tensors_info = s.tensors_info := by
  simp only [gst_tensor_converter_parse_octet]
  (repeat' split) <;> rfl

theorem parse_tensor_info_eq (s : GstTensorConverter) (st : GstStreamStructure) :
    (gst_tensor_converter_parse_tensor s st).1.tensors_info = s.tensors_info := by
  simp only [gst_tensor_converter_parse_tensor]
  (repeat' split) <;> rfl

theorem parseCapsFinish_fail (s : GstTensorConverter) (cfg : GstTensorsConfig)
    (fd : Option Nat) (mt : MediaType) (s2 : GstTensorConverter)
    (h : parseCapsFinish s cfg fd mt = (s2, false)) : s2 = s := by
  simp only [parseCapsFinish] at h
  split at h
  · injection h with h1 _
    exact h1.symm
  · split at h
    · injection h with h1 _
      exact h1.symm
    · injection h with _ h2
      cases h2

theorem parseCapsFinish_success (s : GstTensorConverter) (cfg : GstTensorsConfig)
    (fd : Option Nat) (mt : MediaType) (s2 : GstTensorConverter)
    (h : parseCapsFinish s cfg fd mt = (s2, true)) :
    s2.tensors_info = s.tensors_info ∧
    (gst_tensors_info_validate s.tensors_info = true →
      gst_tensors_info_is_equal s.tensors_info s2.tensors_config.info = true) := by
  simp only [parseCapsFinish] at h
  split at h
  · injection h with _ h2
    cases h2
  · rename_i hgate
    split at h
    · injection h with _ h2
      cases h2
    · rename_i hng
      injection h with h1 _
      subst h1
      refine ⟨rfl, fun hv => ?_⟩
      by_contra hne
      exact hng ⟨hv, by simpa using hne⟩

theorem chain_segment_config (s : GstTensorConverter) (fs : Nat)
    (s2 : GstTensorConverter)
    (h : _gst_tensor_converter_chain_segment s fs = some s2) :
    s2.tensors_config = s.tensors_config := by
  simp only [_gst_tensor_converter_chain_segment] at h
  split at h
  · split at h
    · cases h
    · injection h with h1
      subst h1
      rfl
  · injection h with h1
    subst h1
    rfl

theorem chain_timestamp_config (s : GstTensorConverter) (p d : Option Nat)
    (fi : Nat) :
    (_gst_tensor_converter_chain_timestamp s p d fi).1.tensors_config =
      s.tensors_config := by
  simp only [_gst_tensor_converter_chain_timestamp]
  (repeat' split) <;> rfl

theorem chain_chunk_config (s : GstTensorConverter) (b : MediaBuf)
    (fi fo fs : Nat) :
    (_gst_tensor_converter_chain_chunk s b fi fo fs).1.tensors_config =
      s.tensors_config := by
  simp only [_gst_tensor_converter_chain_chunk]

theorem chainAfter_config (s : GstTensorConverter) (mems : List Nat)
    (b : MediaBuf) (fi fo fs : Nat) :
    (chainAfter s mems b fi fo fs).1.tensors_config = s.tensors_config := by
  simp only [chainAfter]
  rcases hseg : _gst_tensor_converter_chain_segment s fs with _ | s2
  · rfl
  · have h2 := chain_segment_config s fs s2 hseg
    have h3 := chain_timestamp_config s2 b.pts b.duration fi
    dsimp only
    split
    · split
      · exact h3.trans h2
      · exact h3.trans h2
    · rw [chain_chunk_config]
      exact h3.trans h2

theorem recordsToInfos_none {rs : List FlexRecord} {r : FlexRecord} (hm : r ∈ rs)
    (hbad : r.payload.length ≠
      gst_tensor_info_get_size { type := r.meta.type, dimension := r.meta.dims }) :
    recordsToInfos rs = none := by
  induction rs with
  | nil => cases hm
  | cons a tl ih =>
    rcases List.mem_cons.mp hm with he | htl
    · subst he
      simp only [recordsToInfos, flexRecordSize]
      rw [if_neg]
      omega
    · simp only [recordsToInfos]
      split
      · rw [ih htl]
        rfl
      · rfl

/-!
Claim theorems.
-/

/-- Claim C1 (amended): every video capability the parser supports yields a
single-tensor descriptor whose frame rate equals the capability's
framerate; for every packed pixel format the dimension order is
[channels, width, height, 1] with channels the format's component count,
while the planar RGBP/BGRP formats instead yield [width, height, 3, 1]. -/
theorem c1_video_descriptor (s : GstTensorConverter) (v : GstVideoInfo)
    (s2 : GstTensorConverter) (cfg : GstTensorsConfig)
    (h : gst_tensor_converter_parse_video s v = (s2, some cfg)) :
    cfg.info.num_tensors = 1 ∧
    cfg.rate_n = v.fps_n ∧ cfg.rate_d = v.fps_d ∧
    (v.format ≠ GstVideoFormat.RGBP → v.format ≠ GstVideoFormat.BGRP →
      (getNthInfo cfg.info 0).dimension =
        pad16 [spec_component_count v.format, v.width, v.height, 1]) ∧
    ((v.format = GstVideoFormat.RGBP ∨ v.format = GstVideoFormat.BGRP) →
      (getNthInfo cfg.info 0).dimension = pad16 [v.width, v.height, 3, 1]) := by
  rcases v with ⟨fmt, w, hh, fn, fd, sz⟩
  cases fmt <;>
    simp only [gst_tensor_converter_parse_video, videoFormatQuad,
      gst_tensor_converter_video_stride] at h <;>
    repeat' split at h
  all_goals try simp only [Prod.mk.injEq, Option.some.injEq] at h
  all_goals try (obtain ⟨-, h2⟩ := h; subst h2)
  all_goals simp_all [getNthInfo, spec_component_count]

/-- Claim C1 counterexample: the planar RGBP format (8x4, 30 fps) is
supported by the parser and its component count is 3, yet the derived
dimensions are [8, 4, 3, 1] and not [channels, width, height, 1]. -/
theorem c1_counterexample :
    (gst_tensor_converter_parse_video freshState rgbp8Video).2.map
      (fun cfg => (getNthInfo cfg.info 0).dimension) = some (pad16 [8, 4, 3, 1]) ∧
    spec_component_count GstVideoFormat.RGBP = 3 ∧
    pad16 [8, 4, 3, 1] ≠
      pad16 [spec_component_count GstVideoFormat.RGBP, 8, 4, 1] := by
  refine ⟨?_, ?_, ?_⟩ <;> decide

theorem c1_video_descriptor_witness :
    (getNthInfo gray8x4Cfg.info 0).dimension =
      pad16 [spec_component_count GstVideoFormat.GRAY8, 4, 4, 1] :=
  (c1_video_descriptor freshState gray8x4Video
    { freshState with frame_size := 16 } gray8x4Cfg (by decide)).2.2.2.1
    (by decide) (by decide)

set_option maxHeartbeats 1000000 in
/-- Claim C2: an audio substream with frame size 2 bytes, rate 1000/1 and
frames-per-tensor 2 receiving one 8-byte chunk (4 logical frames of 2
bytes) with a valid timestamp t emits exactly two 4-byte output buffers,
the first with timestamp t and the second with timestamp t plus 2
milliseconds (2000000 clock-time units). -/
theorem c2_audio_windowing (t : Nat) :
    (gst_tensor_converter_chain c2State
      { bytes := [0, 0, 0, 0, 0, 0, 0, 0], pts := some t, dts := none,
        duration := none }).2.1.map (fun ob => (ob.mems, ob.pts)) =
      [([4], some t), ([4], some (t + 2000000))] ∧
    (gst_tensor_converter_chain c2State
      { bytes := [0, 0, 0, 0, 0, 0, 0, 0], pts := some t, dts := none,
        duration := none }).2.2 = GstFlowReturn.ok := by
  constructor <;>
  · simp only [gst_tensor_converter_chain, chainPrep, c2State, audioCfg1000]
    norm_num
    simp only [chainAfter, _gst_tensor_converter_chain_segment,
      _gst_tensor_converter_chain_timestamp]
    norm_num [gst_util_uint64_scale_int, GST_SECOND]
    simp only [_gst_tensor_converter_chain_chunk, adapterPush, adapterAvail,
      emptyAdapter, concatAll]
    norm_num
    simp only [chainChunkLoop, adapterAvail, adapterTakeBytes, adapterFlush,
      adapterFlushGo, concatAll, _gst_tensor_converter_chain_push,
      padCapsIsFlexible, gst_tensor_pad_caps_from_config]
    norm_num [gst_util_uint64_scale_int, GST_SECOND]
    try (intro h; cases h)

/-- Claim C3 (amended): in flexible-to-static conversion every record's
payload length (header excluded) is checked against the size declared by
the record's own header; a mismatch of even one byte rejects the whole
buffer with a flow error, zero output buffers and unchanged element state.
The statically negotiated size enters only through the whole-config
comparison, which on a difference rejects the buffer only when
user-declared tensor info exists and otherwise adopts the new
descriptor. -/
theorem c3_payload_size_check (s : GstTensorConverter) (fb : FlexBuf)
    (r : FlexRecord) (hm : r ∈ fb.records)
    (hbad : r.payload.length ≠
      gst_tensor_info_get_size { type := r.meta.type, dimension := r.meta.dims }) :
    gst_tensor_converter_chain_tensor s fb = (s, [], GstFlowReturn.error) := by
  have hnone := recordsToInfos_none hm hbad
  simp only [gst_tensor_converter_chain_tensor, hnone]
  split
  · rfl
  · split
    · rfl
    · rfl

theorem c3_payload_size_check_witness :
    gst_tensor_converter_chain_tensor c3State c3ShortBuf =
      (c3State, [], GstFlowReturn.error) :=
  c3_payload_size_check c3State c3ShortBuf _ (List.mem_singleton.mpr rfl) (by decide)

/-- Claim C3 counterexample: with no user-declared tensor info, a buffer
whose record payload differs by one byte from the statically-expected size
(4 bytes) but matches its own header (5 bytes) is not rejected: the chain
succeeds and emits one output buffer, contradicting the claim that any
deviation from the statically-expected size rejects the whole buffer. -/
theorem c3_counterexample :
    (gst_tensor_converter_chain_tensor c3State c3DriftBuf).2.2 = GstFlowReturn.ok ∧
    (gst_tensor_converter_chain_tensor c3State c3DriftBuf).2.1.length = 1 ∧
    gst_tensor_info_get_size (getNthInfo c3State.tensors_config.info 0) = 4 ∧
    drift5Record.payload.length = 5 := by
  refine ⟨?_, ?_, ?_, ?_⟩ <;> decide

/-- Claim C4 (amended): a failed capability event leaves the previously
configured descriptor, the configured flag and the media kind unchanged;
the frame-size and depadding scratch fields, however, may be clobbered by a
failing video parse. -/
theorem c4_negotiation_failure_preserves (s : GstTensorConverter)
    (caps : InCaps) (peer : Option GstTensorsConfig) (s2 : GstTensorConverter)
    (h : gst_tensor_converter_parse_caps s caps peer = (s2, false)) :
    s2.tensors_config = s.tensors_config ∧
    s2.tensors_configured = s.tensors_configured ∧
    s2.in_media_type = s.in_media_type := by
  cases caps with
  | video v =>
    have hpres := parse_video_preserves s v
    simp only [gst_tensor_converter_parse_caps] at h
    rcases hp : gst_tensor_converter_parse_video s v with ⟨s1, r⟩
    rw [hp] at h hpres
    cases r with
    | none =>
      injection h with h1 _
      subst h1
      exact hpres
    | some cfg =>
      have h4 := parseCapsFinish_fail _ _ _ _ _ h
      subst h4
      exact hpres
  | audio a =>
    have hpres := parse_audio_preserves s a
    simp only [gst_tensor_converter_parse_caps] at h
    rcases hp : gst_tensor_converter_parse_audio s a with ⟨s1, r⟩
    rw [hp] at h hpres
    cases r with
    | none =>
      injection h with h1 _
      subst h1
      exact hpres
    | some cfg =>
      have h4 := parseCapsFinish_fail _ _ _ _ _ h
      subst h4
      exact hpres
  | text st =>
    have hpres := parse_text_preserves s st
    simp only [gst_tensor_converter_parse_caps] at h
    rcases hp : gst_tensor_converter_parse_text s st with ⟨s1, r⟩
    rw [hp] at h hpres
    cases r with
    | none =>
      injection h with h1 _
      subst h1
      exact hpres
    | some cfg =>
      have h4 := parseCapsFinish_fail _ _ _ _ _ h
      subst h4
      exact hpres
  | octet st =>
    have hpres := parse_octet_preserves s st peer
    simp only [gst_tensor_converter_parse_caps] at h
    rcases hp : gst_tensor_converter_parse_octet s st peer with ⟨s1, r⟩
    rw [hp] at h hpres
    cases r with
    | none =>
      injection h with h1 _
      subst h1
      exact hpres
    | some cfg =>
      have h4 := parseCapsFinish_fail _ _ _ _ _ h
      subst h4
      exact hpres
  | tensor st =>
    have hpres := parse_tensor_preserves s st
    simp only [gst_tensor_converter_parse_caps] at h
    rcases hp : gst_tensor_converter_parse_tensor s st with ⟨s1, r⟩
    rw [hp] at h hpres
    cases r with
    | none =>
      injection h with h1 _
      subst h1
      exact hpres
    | some cfg =>
      have h4 := parseCapsFinish_fail _ _ _ _ _ h
      subst h4
      exact hpres

theorem c4_negotiation_failure_preserves_witness :
    (gst_tensor_converter_parse_caps c2State (InCaps.video unsupportedVideo) none).1.tensors_config =
      c2State.tensors_config ∧
    (gst_tensor_converter_parse_caps c2State (InCaps.video unsupportedVideo) none).1.tensors_configured =
      c2State.tensors_configured ∧
    (gst_tensor_converter_parse_caps c2State (InCaps.video unsupportedVideo) none).1.in_media_type =
      c2State.in_media_type :=
  c4_negotiation_failure_preserves c2State (InCaps.video unsupportedVideo) none _ (by decide)

/-- Claim C4 counterexample: an RGBP capability with width 5 (not a multiple
of 4) fails negotiation, yet the failing event sets the element's depadding
flag, so the observable negotiation state is not fully unchanged. -/
theorem c4_counterexample :
    (gst_tensor_converter_parse_caps c2State (InCaps.video rgbp5Video) none).2 = false ∧
    (gst_tensor_converter_parse_caps c2State (InCaps.video rgbp5Video) none).1.remove_padding = true ∧
    c2State.remove_padding = false := by
  refine ⟨?_, ?_, ?_⟩ <;> decide

/-- Claim C5: octet negotiation fails whenever frames-per-tensor exceeds 1
and the effective tensors info declares several tensors or the downstream
descriptor is flexible (in particular user-declared num_tensors=2 with
frames-per-tensor=2), and the failure returns the element state — including
any prior Configured state — exactly unchanged. -/
theorem c5_octet_unsupported_combination (s : GstTensorConverter)
    (st : GstStreamStructure) (peer : Option GstTensorsConfig)
    (h1 : 1 < s.frames_per_tensor)
    (h2 : (octetMultiTensor s peer || octetFlexibleDownstream s peer) = true) :
    gst_tensor_converter_parse_caps s (InCaps.octet st) peer = (s, false) := by
  have h3 : octetMultiTensor s peer = true ∨ octetFlexibleDownstream s peer = true := by
    simpa using h2
  have hoct : gst_tensor_converter_parse_octet s st peer = (s, none) := by
    rcases h3 with hm | hf
    · simp only [octetMultiTensor] at hm
      by_cases huv : gst_tensors_info_validate s.tensors_info = true
      · rw [if_pos huv] at hm
        have hnum := of_decide_eq_true hm
        simp [gst_tensor_converter_parse_octet, huv, h1, hnum]
      · rw [if_neg huv] at hm
        cases peer with
        | none => cases hm
        | some p =>
          by_cases hpv : gst_tensors_info_validate p.info = true
          · simp only [hpv, if_true] at hm
            have hnum := of_decide_eq_true hm
            simp [gst_tensor_converter_parse_octet, huv, hpv, h1, hnum]
          · simp [hpv] at hm
    · simp only [octetFlexibleDownstream] at hf
      by_cases huv : gst_tensors_info_validate s.tensors_info = true
      · rw [if_pos huv] at hf
        cases hf
      · rw [if_neg huv] at hf
        cases peer with
        | none => cases hf
        | some p =>
          simp only [gst_tensor_converter_parse_octet, huv, hf]
          simp only [Bool.false_eq_true, false_and, and_false, if_false,
            if_true, and_true, h1, true_and]
          (repeat' split) <;> rfl
  simp [gst_tensor_converter_parse_caps, hoct]

theorem c5_octet_unsupported_combination_witness :
    1 < c5State.frames_per_tensor ∧
    gst_tensor_converter_parse_caps c5State (InCaps.octet { framerate := none }) none =
      (c5State, false) :=
  ⟨by decide,
   c5_octet_unsupported_combination c5State { framerate := none } none
     (by decide) (by decide)⟩

/-- Claim C6: if the outbound caps computed from the descriptor equal the
caps currently published on the src pad, update_caps performs no downstream
capability update; a publication updates downstream exactly when the
published caps differ, so publishing the same descriptor twice in
succession triggers exactly one downstream capability update. -/
theorem c6_update_caps_idempotent (s : GstTensorConverter) :
    (gst_tensor_converter_update_caps (gst_tensor_converter_update_caps s).1).2 = false ∧
    ((gst_tensor_converter_update_caps s).2 = true ↔
      s.srcpad_caps ≠ some (gst_tensor_pad_caps_from_config s.tensors_config)) := by
  constructor
  · rcases h : s.srcpad_caps with _ | curr
    · simp [gst_tensor_converter_update_caps, h]
    · by_cases he : curr = gst_tensor_pad_caps_from_config s.tensors_config
      · simp [gst_tensor_converter_update_caps, h, he]
      · simp [gst_tensor_converter_update_caps, h, he]
  · rcases h : s.srcpad_caps with _ | curr
    · simp [gst_tensor_converter_update_caps, h]
    · by_cases he : curr = gst_tensor_pad_caps_from_config s.tensors_config
      · simp [gst_tensor_converter_update_caps, h, he]
      · simp [gst_tensor_converter_update_caps, h, he]

theorem c6_update_caps_idempotent_witness :
    (gst_tensor_converter_update_caps freshState).2 = true ∧
    (gst_tensor_converter_update_caps (gst_tensor_converter_update_caps freshState).1).2 = false :=
  ⟨((c6_update_caps_idempotent freshState).2.mpr (by decide)),
   (c6_update_caps_idempotent freshState).1⟩

/-- Claim C7: when the user-declared tensor info validates, a successful
capability event commits a descriptor whose tensors info is structurally
equal to the user-declared one (a mismatch makes the event fail rather than
silently overriding either descriptor). -/
theorem c7_user_declared_info_authoritative (s : GstTensorConverter)
    (caps : InCaps) (peer : Option GstTensorsConfig) (s2 : GstTensorConverter)
    (h : gst_tensor_converter_parse_caps s caps peer = (s2, true))
    (hv : gst_tensors_info_validate s.tensors_info = true) :
    gst_tensors_info_is_equal s.tensors_info s2.tensors_config.info = true := by
  cases caps with
  | video v =>
    have hinfo := parse_video_info_eq s v
    simp only [gst_tensor_converter_parse_caps] at h
    rcases hp : gst_tensor_converter_parse_video s v with ⟨s1, r⟩
    rw [hp] at h hinfo
    cases r with
    | none =>
      injection h with _ h2
      cases h2
    | some cfg =>
      have h4 := (parseCapsFinish_success _ _ _ _ _ h).2
      rw [hinfo] at h4
      exact h4 hv
  | audio a =>
    have hinfo := parse_audio_info_eq s a
    simp only [gst_tensor_converter_parse_caps] at h
    rcases hp : gst_tensor_converter_parse_audio s a with ⟨s1, r⟩
    rw [hp] at h hinfo
    cases r with
    | none =>
      injection h with _ h2
      cases h2
    | some cfg =>
      have h4 := (parseCapsFinish_success _ _ _ _ _ h).2
      rw [hinfo] at h4
      exact h4 hv
  | text st =>
    have hinfo := parse_text_info_eq s st
    simp only [gst_tensor_converter_parse_caps] at h
    rcases hp : gst_tensor_converter_parse_text s st with ⟨s1, r⟩
    rw [hp] at h hinfo
    cases r with
    | none =>
      injection h with _ h2
      cases h2
    | some cfg =>
      have h4 := (parseCapsFinish_success _ _ _ _ _ h).2
      rw [hinfo] at h4
      exact h4 hv
  | octet st =>
    have hinfo := parse_octet_info_eq s st peer
    simp only [gst_tensor_converter_parse_caps] at h
    rcases hp : gst_tensor_converter_parse_octet s st peer with ⟨s1, r⟩
    rw [hp] at h hinfo
    cases r with
    | none =>
      injection h with _ h2
      cases h2
    | some cfg =>
      have h4 := (parseCapsFinish_success _ _ _ _ _ h).2
      rw [hinfo] at h4
      exact h4 hv
  | tensor st =>
    have hinfo := parse_tensor_info_eq s st
    simp only [gst_tensor_converter_parse_caps] at h
    rcases hp : gst_tensor_converter_parse_tensor s st with ⟨s1, r⟩
    rw [hp] at h hinfo
    cases r with
    | none =>
      injection h with _ h2
      cases h2
    | some cfg =>
      have h4 := (parseCapsFinish_success _ _ _ _ _ h).2
      rw [hinfo] at h4
      exact h4 hv

theorem c7_user_declared_info_authoritative_witness :
    gst_tensors_info_validate c7State.tensors_info = true ∧
    gst_tensors_info_is_equal c7State.tensors_info
      ((gst_tensor_converter_parse_caps c7State (InCaps.audio c7Audio) none).1.tensors_config.info) =
      true :=
  ⟨by decide,
   c7_user_declared_info_authoritative c7State (InCaps.audio c7Audio) none _
     (by decide) (by decide)⟩

/-- Claim C8: a GRAY8 frame of width 5 (source rows padded to stride 8, so
the buffer is 8*height bytes) processed with the depadding path yields one
output frame of exactly 5*height bytes in which destination row r is the
first 5 bytes of source row r, with no padding bytes in the output. -/
theorem c8_gray8_depadding (h : Nat) (src : List Nat) (t : Nat)
    (hh : 0 < h) (hlen : src.length = 8 * h) :
    (gst_tensor_converter_chain (gray8State h)
      { bytes := src, pts := some t, dts := none, duration := none }).2.2 =
      GstFlowReturn.ok ∧
    (gst_tensor_converter_chain (gray8State h)
      { bytes := src, pts := some t, dts := none, duration := none }).2.1.map
        (fun ob => ob.bytes) = [depadRows src 5 8 h] ∧
    (depadRows src 5 8 h).length = 5 * h ∧
    (∀ r i, r < h → i < 5 →
      (depadRows src 5 8 h).getD (r * 5 + i) 0 = src.getD (r * 8 + i) 0) := by
  have hz : ¬ (src.length = 0) := by omega
  have hdiv : src.length / (8 * h) = 1 := by
    rw [hlen]
    exact Nat.div_self (by omega)
  refine ⟨?_, ?_, ?_, ?_⟩
  · simp only [gst_tensor_converter_chain, chainPrep, gray8State, gray8Cfg,
      getNthInfo, pad16, NNS_TENSOR_RANK_LIMIT, hz, hdiv,
      gst_tensor_get_element_size]
    norm_num
    simp only [chainAfter, _gst_tensor_converter_chain_segment,
      _gst_tensor_converter_chain_timestamp, _gst_tensor_converter_chain_push,
      padCapsIsFlexible]
    norm_num
  · simp only [gst_tensor_converter_chain, chainPrep, gray8State, gray8Cfg,
      getNthInfo, pad16, NNS_TENSOR_RANK_LIMIT, hz, hdiv,
      gst_tensor_get_element_size]
    norm_num
    simp only [chainAfter, _gst_tensor_converter_chain_segment,
      _gst_tensor_converter_chain_timestamp, _gst_tensor_converter_chain_push,
      padCapsIsFlexible]
    norm_num
  · have hle : h * 8 ≤ src.length := by omega
    have := depadRows_length src 5 8 (by omega) h hle
    omega
  · intro r i hr hi
    have hle : h * 8 ≤ src.length := by omega
    exact depadRows_getD src 5 8 (by omega) h hle r i hr hi

theorem c8_gray8_depadding_witness :
    (gst_tensor_converter_chain (gray8State 2)
      { bytes := c8Src, pts := some 0, dts := none, duration := none }).2.2 =
      GstFlowReturn.ok ∧
    (depadRows c8Src 5 8 2).length = 5 * 2 ∧
    (depadRows c8Src 5 8 2).getD (1 * 5 + 2) 0 = c8Src.getD (1 * 8 + 2) 0 :=
  ⟨(c8_gray8_depadding 2 c8Src 0 (by decide) (by decide)).1,
   (c8_gray8_depadding 2 c8Src 0 (by decide) (by decide)).2.2.1,
   (c8_gray8_depadding 2 c8Src 0 (by decide) (by decide)).2.2.2 1 2
     (by decide) (by decide)⟩

/-- Claim C9: when octet negotiation adopts a flexible downstream descriptor
the resulting config declares exactly one tensor, and every chain
invocation on a flexible octet stream overwrites that tensor's leading
dimension with the buffer's payload size while preserving the tensor
count — so the invariant (one tensor, leading dimension = current payload
size) holds after every chain invocation. -/
theorem c9_flexible_invariant :
    (∀ (s : GstTensorConverter) (st : GstStreamStructure)
       (peer : Option GstTensorsConfig) (s1 : GstTensorConverter)
       (cfg : GstTensorsConfig),
      s.tensors_info.format = TensorFormat.static →
      gst_tensor_converter_parse_octet s st peer = (s1, some cfg) →
      cfg.info.format = TensorFormat.flexible →
      cfg.info.num_tensors = 1) ∧
    (∀ (s : GstTensorConverter) (buf : MediaBuf),
      s.in_media_type = MediaType.octet →
      s.tensors_config.info.format = TensorFormat.flexible →
      s.tensors_configured = true →
      0 < buf.bytes.length →
      (gst_tensor_converter_chain s buf).1.tensors_config.info.num_tensors =
        s.tensors_config.info.num_tensors ∧
      (getNthInfo (gst_tensor_converter_chain s buf).1.tensors_config.info 0).dimension.getD 0 0 =
        buf.bytes.length) := by
  constructor
  · intro s st peer s1 cfg hstat hp hflex
    simp only [gst_tensor_converter_parse_octet] at hp
    repeat' split at hp
    all_goals try simp only [Prod.mk.injEq, Option.some.injEq] at hp
    all_goals try (obtain ⟨-, h2⟩ := hp; subst h2)
    all_goals simp_all [gst_tensors_config_is_flexible]
  · intro s buf hmedia hflex hconf hlen
    have hnz : ¬ (buf.bytes.length = 0) := by omega
    have hfx : gst_tensors_config_is_flexible s.tensors_config = true := by
      simp [gst_tensors_config_is_flexible, hflex]
    simp only [gst_tensor_converter_chain, chainPrep, hmedia, hconf, hfx, hnz]
    try simp only [Bool.true_eq_false, if_false, if_true, ite_false, ite_true]
    rw [chainAfter_config]
    constructor
    · exact setTensorDim_num s.tensors_config.info 0 0 buf.bytes.length
    · exact setTensorDim_dim0 s.tensors_config.info buf.bytes.length

theorem c9_flexible_invariant_witness :
    flexCfg.info.num_tensors = 1 ∧
    (gst_tensor_converter_chain c9State
      { bytes := [1, 2, 3], pts := some 0, dts := none,
        duration := none }).1.tensors_config.info.num_tensors =
      c9State.tensors_config.info.num_tensors ∧
    (getNthInfo (gst_tensor_converter_chain c9State
      { bytes := [1, 2, 3], pts := some 0, dts := none,
        duration := none }).1.tensors_config.info 0).dimension.getD 0 0 = 3 :=
  ⟨c9_flexible_invariant.1 freshState { framerate := none } (some flexCfg)
     freshState flexCfg rfl (by decide) rfl,
   (c9_flexible_invariant.2 c9State
     { bytes := [1, 2, 3], pts := some 0, dts := none, duration := none }
     rfl rfl rfl (by decide)).1,
   (c9_flexible_invariant.2 c9State
     { bytes := [1, 2, 3], pts := some 0, dts := none, duration := none }
     rfl rfl rfl (by decide)).2⟩

/-- Claim C10: an incoming data buffer of total byte size zero makes the
chain function return a flow error immediately, with the element state
unchanged (so nothing is pushed into any adapter) and no buffer emitted
downstream; this holds for the media chain path and for the
flexible-tensor chain path. -/
theorem c10_zero_size_buffer :
    (∀ (s : GstTensorConverter) (buf : MediaBuf), buf.bytes.length = 0 →
      gst_tensor_converter_chain s buf = (s, [], GstFlowReturn.error)) ∧
    (∀ (s : GstTensorConverter) (fb : FlexBuf),
      (fb.records.map flexRecordSize).sum = 0 →
      gst_tensor_converter_chain_tensor s fb = (s, [], GstFlowReturn.error)) := by
  constructor
  · intro s buf h
    simp [gst_tensor_converter_chain, h]
  · intro s fb h
    simp [gst_tensor_converter_chain_tensor, h]

theorem c10_zero_size_buffer_witness :
    gst_tensor_converter_chain c2State
      { bytes := [], pts := some 0, dts := none, duration := none } =
      (c2State, [], GstFlowReturn.error) :=
  c10_zero_size_buffer.1 c2State _ rfl

end TensorConverter
